import Mathlib

/-!
Verification of the battle-record decoding pipeline
(`src/battle_record.py`, `src/read_battle_records.py`) of the
Splatoon3Rank repository, as a shallow embedding in Lean.

Conventions of the embedding:
* Python values that may be an uncaught exception are modelled in the
  `Py` monad (`Except Exn`); an `Exn` result corresponds to an exception
  propagating out of the function.
* The repository's `Err` objects ("an error that has occurred but not
  been logged or handled yet") are ordinary return values in the source,
  so a Python return type `X | Err` is modelled as `Except Err X`.
* Python `str` is Lean `String`, `dict[str, str]` rows are association
  lists in insertion order, Python `float` is modelled by `ℚ` (no claim
  under consideration depends on binary floating-point rounding).
* Library functions (`json.loads`, `int`, `float`,
  `datetime.fromisoformat`, `csv.DictReader`) are modelled by executable
  Lean functions documented at their definitions.
-/

namespace Splatoon3

/-- Python exceptions that the decoding pipeline can raise and does not
catch (or catches selectively, as `create_team_performance` catches
`ValueError`).  The payload is the exception message (for `keyError`,
the missing key). -/
inductive Exn where
  | keyError (key : String)
  | valueError (msg : String)
  | typeError (msg : String)
  | attributeError (msg : String)
  | indexError (msg : String)
deriving DecidableEq, Repr

/-- Computations that may raise an uncaught Python exception. -/
abbrev Py (α : Type) : Type := Except Exn α

/-- `class Err` of `read_battle_records.py`: an error value carrying a
message (`Err.log` only writes to the logger, so it has no effect on
the data flow and is not modelled). -/
structure Err where
  msg : String
deriving DecidableEq, Repr

/-- A CSV row as produced by `csv.DictReader`: a mapping from column
name to text, modelled as an association list in column order with
distinct keys. -/
abbrev Row : Type := List (String × String)

/-- Python `row[k]` on a `dict[str, str]`: the value if the key is
present, otherwise a `KeyError`. -/
def dictGet (d : Row) (k : String) : Py String :=
  match d.find? (fun kv => kv.1 == k) with
  | some kv => .ok kv.2
  | none => .error (.keyError k)

/-- Python `k in row` (key membership). -/
def rowHasKey (d : Row) (k : String) : Bool :=
  (d.find? (fun kv => kv.1 == k)).isSome

/-- Python `row.keys()`. -/
def rowKeys (d : Row) : List String :=
  d.map Prod.fst

/-- Replace the value of key `k` in a row (used to build test rows). -/
def setKey (d : Row) (k v : String) : Row :=
  d.map (fun kv => if kv.1 = k then (k, v) else kv)

/-- Remove key `k` from a row (used to build test rows). -/
def removeKey (d : Row) (k : String) : Row :=
  d.filter (fun kv => kv.1 ≠ k)

/-- The numeric value of a decimal digit character. -/
def digitVal (c : Char) : Nat := c.toNat - 48

/-- The natural number denoted by a list of decimal digit characters. -/
def digitsToNat (ds : List Char) : Nat :=
  ds.foldl (fun a c => 10 * a + digitVal c) 0

/-- Model of Python `int(s)` on a string: an optional sign followed by
one or more decimal digits (whitespace padding and underscore
separators, which CPython also accepts, are not modelled; no input in
this development uses them). `none` models `ValueError`. -/
def str_to_int? (s : String) : Option Int :=
  let core : List Char → Option Int := fun cs =>
    if cs ≠ [] ∧ cs.all Char.isDigit then some (digitsToNat cs) else none
  match s.data with
  | '+' :: rest => core rest
  | '-' :: rest => (core rest).map Neg.neg
  | cs => core cs

/-- Unsigned part of Python `float(s)`: digits with an optional dot
(`"5"`, `"5."`, `".5"`, `"5.5"`; exponent notation and `inf`/`nan`,
which CPython also accepts, are not modelled; no input in this
development uses them). -/
def parseUnsignedFloat? (cs : List Char) : Option ℚ :=
  let ipart := cs.takeWhile Char.isDigit
  let rest := cs.dropWhile Char.isDigit
  match rest with
  | [] => if ipart = [] then none else some (digitsToNat ipart)
  | '.' :: rest2 =>
    let fpart := rest2.takeWhile Char.isDigit
    let rest3 := rest2.dropWhile Char.isDigit
    if rest3 ≠ [] then none
    else if ipart = [] ∧ fpart = [] then none
    else some ((digitsToNat ipart : ℚ) + (digitsToNat fpart : ℚ) / (10 ^ fpart.length : ℚ))
  | _ => none

/-- Model of Python `float(s)` on a string; `none` models `ValueError`. -/
def str_to_float? (s : String) : Option ℚ :=
  match s.data with
  | '+' :: rest => parseUnsignedFloat? rest
  | '-' :: rest => (parseUnsignedFloat? rest).map Neg.neg
  | cs => parseUnsignedFloat? cs

/-- Model of Python `str.lower()` (ASCII case folding suffices for the
values this code lowercases). -/
def pyLower (s : String) : String :=
  ⟨s.data.map Char.toLower⟩

/-- Python `int(s)` raising `ValueError` on failure. -/
def pyInt (s : String) : Py Int :=
  match str_to_int? s with
  | some n => .ok n
  | none => .error (.valueError ("invalid literal for int() with base 10: \x27" ++ s ++ "\x27"))

/-- Python `float(s)` raising `ValueError` on failure. -/
def pyFloat (s : String) : Py ℚ :=
  match str_to_float? s with
  | some q => .ok q
  | none => .error (.valueError ("could not convert string to float: \x27" ++ s ++ "\x27"))

/-- A parsed Python JSON value (`json.loads` result).  Numbers are
modelled by `ℚ`. -/
inductive Json where
  | null
  | bool (b : Bool)
  | num (q : ℚ)
  | str (s : String)
  | arr (elems : List Json)
  | obj (fields : List (String × Json))

/-- Whitespace skipped by the JSON grammar. -/
def skipWs (cs : List Char) : List Char :=
  cs.dropWhile (fun c => c = ' ' || c = '\t' || c = '\n' || c = '\r')

/-- Parse the digits/dot portion of a JSON number (exponent notation is
not modelled; no input in this development uses it). -/
def parseJsonNumber? (cs : List Char) : Option (ℚ × List Char) :=
  let sign : ℚ := if cs.head? = some '-' then -1 else 1
  let cs1 := if cs.head? = some '-' then cs.tail else cs
  let ipart := cs1.takeWhile Char.isDigit
  let rest := cs1.dropWhile Char.isDigit
  if ipart = [] then none
  else
    match rest with
    | '.' :: rest2 =>
      let fpart := rest2.takeWhile Char.isDigit
      let rest3 := rest2.dropWhile Char.isDigit
      if fpart = [] then none
      else some (sign * ((digitsToNat ipart : ℚ) + (digitsToNat fpart : ℚ) / (10 ^ fpart.length : ℚ)), rest3)
    | _ => some (sign * (digitsToNat ipart : ℚ), rest)

/-- Parse a JSON string body after the opening quote (escape sequences
are not modelled; no input in this development uses them). -/
def parseJsonString? (cs : List Char) : Option (String × List Char) :=
  let body := cs.takeWhile (fun c => c ≠ '"' && c ≠ '\\')
  match cs.dropWhile (fun c => c ≠ '"' && c ≠ '\\') with
  | '"' :: rest => some (⟨body⟩, rest)
  | _ => none

mutual

/-- Recursive-descent JSON value parser with explicit fuel (the fuel is
only a termination device; `json_loads` supplies more than enough). -/
def parseJsonValue (fuel : Nat) (cs : List Char) : Option (Json × List Char) :=
  match fuel with
  | 0 => none
  | fuel' + 1 =>
    match skipWs cs with
    | 'n' :: 'u' :: 'l' :: 'l' :: rest => some (.null, rest)
    | 't' :: 'r' :: 'u' :: 'e' :: rest => some (.bool true, rest)
    | 'f' :: 'a' :: 'l' :: 's' :: 'e' :: rest => some (.bool false, rest)
    | '"' :: rest =>
      match parseJsonString? rest with
      | some (s, rest2) => some (.str s, rest2)
      | none => none
    | '[' :: rest =>
      (match skipWs rest with
       | ']' :: rest2 => some (.arr [], rest2)
       | _ =>
         match parseJsonElems fuel' rest with
         | some (xs, rest2) => some (.arr xs, rest2)
         | none => none)
    | '{' :: rest =>
      (match skipWs rest with
       | '}' :: rest2 => some (.obj [], rest2)
       | _ =>
         match parseJsonMembers fuel' rest with
         | some (fs, rest2) => some (.obj fs, rest2)
         | none => none)
    | cs' => parseJsonNumber? cs' |>.map (fun (q, rest) => (.num q, rest))

/-- Comma-separated JSON array elements up to the closing bracket. -/
def parseJsonElems (fuel : Nat) (cs : List Char) : Option (List Json × List Char) :=
  match fuel with
  | 0 => none
  | fuel' + 1 =>
    match parseJsonValue fuel' cs with
    | none => none
    | some (v, rest) =>
      match skipWs rest with
      | ',' :: rest2 =>
        (match parseJsonElems fuel' rest2 with
         | some (xs, rest3) => some (v :: xs, rest3)
         | none => none)
      | ']' :: rest2 => some ([v], rest2)
      | _ => none

/-- Comma-separated JSON object members up to the closing brace. -/
def parseJsonMembers (fuel : Nat) (cs : List Char) : Option (List (String × Json) × List Char) :=
  match fuel with
  | 0 => none
  | fuel' + 1 =>
    match skipWs cs with
    | '"' :: rest =>
      (match parseJsonString? rest with
       | none => none
       | some (k, rest2) =>
         match skipWs rest2 with
         | ':' :: rest3 =>
           (match parseJsonValue fuel' rest3 with
            | none => none
            | some (v, rest4) =>
              match skipWs rest4 with
              | ',' :: rest5 =>
                (match parseJsonMembers fuel' rest5 with
                 | some (fs, rest6) => some ((k, v) :: fs, rest6)
                 | none => none)
              | '}' :: rest5 => some ([(k, v)], rest5)
              | _ => none)
         | _ => none)
    | _ => none

end

/-- Model of Python `json.loads`: parse the whole string as one JSON
value, failing (`json.JSONDecodeError`) on trailing garbage or
malformed input. -/
def json_loads (s : String) : Except String Json :=
  match parseJsonValue (2 * s.length + 2) s.data with
  | some (v, rest) =>
    if skipWs rest = [] then .ok v
    else .error ("Extra data: " ++ s)
  | none => .error ("Expecting value: " ++ s)

/-! ## Reference catalogs and field validators (`src/battle_record.py`) -/

/-- `ABILITY_KEYS` of `battle_record.py`: the `"key"` entries of
`ABILITY_DATA` (`src/ability_data.py`), in file order. -/
def ABILITY_KEYS : List String :=
  ["ink_saver_main", "ink_saver_sub", "ink_recovery_up", "run_speed_up",
   "swim_speed_up", "special_charge_up", "special_saver", "special_power_up",
   "quick_respawn", "quick_super_jump", "sub_power_up", "ink_resistance_up",
   "sub_resistance_up", "intensify_action", "opening_gambit", "last_ditch_effort",
   "tenacity", "comeback", "ninja_squid", "haunt", "thermal_ink",
   "respawn_punisher", "ability_doubler", "stealth_jump", "object_shredder",
   "drop_roller"]

/-- `is_ability_key` of `battle_record.py`. -/
def is_ability_key (key : String) : Bool :=
  ABILITY_KEYS.contains key

/-- Modelled from the spec: the weapon/loadout and stage identifier
catalogs come from modules (`kit_data`, `stage_data`) that are not part
of the source under consideration; per the spec they are "immutable
sets of valid identifiers" supplied as "static reference catalogs"
queried only for membership.  The decoding functions receive them as an
explicit parameter. -/
structure Catalogs where
  weapon_keys : List String
  stage_keys : List String

/-- `is_weapon_key`: membership of the raw string in the weapon
catalog (validator imported by `read_battle_records.py`; its defining
module is not part of the source, see `Catalogs`). -/
def is_weapon_key (C : Catalogs) (key : String) : Bool :=
  C.weapon_keys.contains key

/-- `is_stage_key` of `battle_record.py`: membership in `STAGE_KEYS`
(the catalog itself comes from the missing `stage_data` module, see
`Catalogs`). -/
def is_stage_key (C : Catalogs) (key : String) : Bool :=
  C.stage_keys.contains key

/-- The keys of `LOBBY_DESCRIPTIONS` in `battle_record.py`, in
insertion order. -/
def LOBBY_KEYS : List String :=
  ["regular", "bankara_challenge", "bankara_open", "xmatch",
   "splatfest_challenge", "splatfest_open", "event"]

/-- `is_lobby_key` of `battle_record.py`. -/
def is_lobby_key (key : String) : Bool :=
  LOBBY_KEYS.contains key

/-- The keys of `MODE_DESCRIPTIONS` in `battle_record.py`, in
insertion order. -/
def MODE_KEYS : List String :=
  ["nawabari", "area", "yagura", "hoko", "asari"]

/-- `is_mode_key` of `battle_record.py`. -/
def is_mode_key (key : String) : Bool :=
  MODE_KEYS.contains key

/-- `TEAM_KEYS` of `battle_record.py`. -/
def TEAM_KEYS : List String := ["alpha", "bravo"]

/-- `is_team_key` of `battle_record.py`. -/
def is_team_key (key : String) : Bool :=
  TEAM_KEYS.contains key

/-- `is_rank_string` of `battle_record.py`: `fullmatch` against the
regular expression `(?:[CBAS][+-]?|S\+ [0-9]|S\+ [1-4][0-9]|S\+ 50)?`,
transcribed alternative by alternative.  A match of the whole (optional)
group has length 0 (empty alternative), 1 or 2 (`[CBAS][+-]?`), 4
(`S\+ [0-9]`) or 5 (`S\+ [1-4][0-9]` or `S\+ 50`); no other length can
match, which the shape match below mirrors. -/
def is_rank_string (key : String) : Bool :=
  match key.data with
  | [] => true
  | [c] => c == 'C' || c == 'B' || c == 'A' || c == 'S'
  | [c, d] => (c == 'C' || c == 'B' || c == 'A' || c == 'S') && (d == '+' || d == '-')
  | [c1, c2, c3, d] => c1 == 'S' && c2 == '+' && c3 == ' ' && d.isDigit
  | [c1, c2, c3, d1, d2] =>
    c1 == 'S' && c2 == '+' && c3 == ' ' &&
      ((('1' ≤ d1 && d1 ≤ '4') && d2.isDigit) || (d1 == '5' && d2 == '0'))
  | _ => false

/-- `is_color_string` of `battle_record.py`: `fullmatch` against
`[0-9a-f]{8}` — exactly eight lowercase hexadecimal digits. -/
def is_color_string (key : String) : Bool :=
  key.data.length = 8 && key.data.all (fun c => c.isDigit || ('a' ≤ c && c ≤ 'f'))

/-- `is_medal_grade` of `battle_record.py`. -/
def is_medal_grade (key : String) : Bool :=
  (["gold", "silver"] : List String).contains key

/-! ## Data model (`src/battle_record.py` dataclasses) -/

/-- Model of `datetime.datetime` restricted to what
`datetime.fromisoformat` produces from the inputs of this development. -/
structure PyDateTime where
  year : Nat
  month : Nat
  day : Nat
  hour : Nat
  minute : Nat
  second : Nat
deriving DecidableEq, Repr

/-- Model of `datetime.fromisoformat`: accepts `YYYY-MM-DD`, optionally
followed by `THH:MM:SS`, with in-range fields (further formats CPython
accepts are not modelled; no input in this development uses them).
An invalid string raises `ValueError`, which `battle_record_for_row`
does not catch. -/
def datetime_fromisoformat (s : String) : Py PyDateTime :=
  let bad : Py PyDateTime := .error (.valueError ("Invalid isoformat string: \x27" ++ s ++ "\x27"))
  match s.data with
  | [y1, y2, y3, y4, '-', m1, m2, '-', d1, d2] =>
    if [y1, y2, y3, y4, m1, m2, d1, d2].all Char.isDigit then
      let mo := digitsToNat [m1, m2]
      let da := digitsToNat [d1, d2]
      if 1 ≤ mo ∧ mo ≤ 12 ∧ 1 ≤ da ∧ da ≤ 31 then
        .ok ⟨digitsToNat [y1, y2, y3, y4], mo, da, 0, 0, 0⟩
      else bad
    else bad
  | [y1, y2, y3, y4, '-', m1, m2, '-', d1, d2, 'T', h1, h2, ':', n1, n2, ':', s1, s2] =>
    if [y1, y2, y3, y4, m1, m2, d1, d2, h1, h2, n1, n2, s1, s2].all Char.isDigit then
      let mo := digitsToNat [m1, m2]
      let da := digitsToNat [d1, d2]
      let ho := digitsToNat [h1, h2]
      let mi := digitsToNat [n1, n2]
      let se := digitsToNat [s1, s2]
      if 1 ≤ mo ∧ mo ≤ 12 ∧ 1 ≤ da ∧ da ≤ 31 ∧ ho ≤ 23 ∧ mi ≤ 59 ∧ se ≤ 59 then
        .ok ⟨digitsToNat [y1, y2, y3, y4], mo, da, ho, mi, se⟩
      else bad
    else bad
  | _ => bad

/-- `RankedPerformance` and `TurfWarPerformance` of `battle_record.py`
(the two performance dataclasses; `create_team_performance` returns one
of them, or `None`, or an `Err`). -/
inductive Performance where
  | rankedPerformance (count : Int)
  | turfWarPerformance (inked : Option Int) (inked_percent : ℚ)
deriving DecidableEq, Repr

/-- `TeamCharacteristics` of `battle_record.py`. -/
structure TeamCharacteristics where
  team : String
  color : Option String
  performance : Option Performance
  theme : String
deriving DecidableEq, Repr

/-- `Medal` of `battle_record.py`. -/
structure Medal where
  name : String
  grade : String
deriving DecidableEq, Repr

instance {ε α : Type} [DecidableEq ε] [DecidableEq α] : DecidableEq (Except ε α)
  | .ok a, .ok b =>
    if h : a = b then .isTrue (by rw [h]) else .isFalse (by intro hc; cases hc; exact h rfl)
  | .ok _, .error _ => .isFalse (by intro hc; cases hc)
  | .error _, .ok _ => .isFalse (by intro hc; cases hc)
  | .error e, .error f =>
    if h : e = f then .isTrue (by rw [h]) else .isFalse (by intro hc; cases hc; exact h rfl)

/-- `BattleParticipant` as `create_participant` actually constructs it.
The Python dataclass annotates `abilities : dict[AbilityKey, float]`,
but the annotation is not enforced at runtime and `create_participant`
stores the raw result of `parse_abilities` — which may be an `Err`
object — without checking it; the field type below records that runtime
fact.  The Python constructor is called with keyword `weapon=` (the
field the decoder fills), so that name is kept. -/
structure BattleParticipant where
  team : String
  team_member_num : Nat
  weapon : String
  num_kills_and_assists : Int
  num_kills : Int
  num_assists : Int
  num_deaths : Int
  num_special_uses : Int
  turf_inked : Int
  abilities : Except Err (List (String × ℚ))
deriving DecidableEq, Repr

/-- `BattleRecord` of `battle_record.py`.  The two `dict` fields are
association lists in insertion order. -/
structure BattleRecord where
  season : String
  period : PyDateTime
  game_version : String
  lobby : String
  mode : String
  stage : String
  length : Int
  winning_team : String
  knockout : Bool
  rank : String
  power : Option ℚ
  team_characteristics : List (String × TeamCharacteristics)
  participants : List ((String × Nat) × BattleParticipant)
  medals : List Medal
  event_name : String
deriving DecidableEq, Repr

/-! ## Row decoding (`src/read_battle_records.py`) -/

/-- Python `float(x)` applied to a decoded JSON value, as in the dict
comprehension of `parse_abilities`: numbers and booleans convert,
strings are parsed (`ValueError` on failure), and `None`/lists/dicts
raise `TypeError` — which `parse_abilities` does **not** catch. -/
def pyFloatOfJson : Json → Py ℚ
  | .num q => .ok q
  | .bool b => .ok (if b then 1 else 0)
  | .str s => pyFloat s
  | .null => .error (.typeError "float() argument must be a string or a real number, not \x27NoneType\x27")
  | .arr _ => .error (.typeError "float() argument must be a string or a real number, not \x27list\x27")
  | .obj _ => .error (.typeError "float() argument must be a string or a real number, not \x27dict\x27")

/-- The dict comprehension
`{AbilityKey(key): float(value) for key, value in loaded.items()}`:
left to right, stopping at the first exception. -/
def floatAllValues : List (String × Json) → Py (List (String × ℚ))
  | [] => .ok []
  | (k, v) :: rest => do
    let q ← pyFloatOfJson v
    let qs ← floatAllValues rest
    pure ((k, q) :: qs)

/-- Python `repr` of a set of strings, `\x7b'a', 'b'\x7d` (iteration
order of the Python set is unspecified; this model uses the order in
which the keys occur in the JSON object). -/
def pySetRepr (xs : List String) : String :=
  "\x7b" ++ String.intercalate ", " (xs.map (fun s => "\x27" ++ s ++ "\x27")) ++ "\x7d"

/-- `parse_abilities` of `read_battle_records.py`.
`json.JSONDecodeError` is caught (→ `Err`); a decoded value that is not
an object makes `loaded.keys()` raise an uncaught `AttributeError`;
invalid ability keys are collected into an `Err`; `ValueError` from
`float` is caught (→ `Err`), while `TypeError` propagates. -/
def parse_abilities (abilities_json : String) : Py (Except Err (List (String × ℚ))) :=
  match json_loads abilities_json with
  | .error e => .ok (.error ⟨"Failed to decode abilities JSON. " ++ e⟩)
  | .ok (.obj fields) =>
    let bad_keys := (fields.map Prod.fst).filter (fun k => ¬ is_ability_key k)
    if bad_keys ≠ [] then
      .ok (.error ⟨"Invalid ability key found in abilities JSON: " ++ pySetRepr bad_keys⟩)
    else
      match floatAllValues fields with
      | .ok m => .ok (.ok m)
      | .error (.valueError msg) => .ok (.error ⟨"Failed to convert ability value to float. " ++ msg⟩)
      | .error e => .error e
  | .ok _ => .error (.attributeError "object has no attribute \x27keys\x27")

/-- `is_valid_member_num` of `read_battle_records.py`. -/
def is_valid_member_num (member_num : Nat) : Bool :=
  1 ≤ member_num && member_num ≤ 4

/-- `create_participant` of `read_battle_records.py`.  Field accesses
can raise `KeyError` and the six `int(...)` calls can raise an uncaught
`ValueError`; the result of `parse_abilities` is stored unchecked in
the `abilities` field.  On an invalid member number the source builds
an `Err` on line 111 but lacks the `return`, so the value is discarded
and the "Invalid weapon key" `Err` is returned instead; both messages
are plain strings missing the `f` prefix, so the braces are literal. -/
def create_participant (C : Catalogs) (data : Row) (team : String) (member_num : Nat) :
    Py (Except Err BattleParticipant) := do
  let first ←
    match team.data with
    | [] => (.error (.indexError "string index out of range") : Py Char)
    | c :: _ => .ok c
  let id_ := String.singleton first.toUpper ++ toString member_num
  let weapon_key ← dictGet data (id_ ++ "-weapon")
  if is_valid_member_num member_num && is_weapon_key C weapon_key then do
    let ka ← pyInt (← dictGet data (id_ ++ "-kill-assist"))
    let ki ← pyInt (← dictGet data (id_ ++ "-kill"))
    let asst ← pyInt (← dictGet data (id_ ++ "-assist"))
    let de ← pyInt (← dictGet data (id_ ++ "-death"))
    let sp ← pyInt (← dictGet data (id_ ++ "-special"))
    let ink ← pyInt (← dictGet data (id_ ++ "-inked"))
    let ab ← parse_abilities (← dictGet data (id_ ++ "-abilities"))
    pure (.ok ⟨team, member_num, weapon_key, ka, ki, asst, de, sp, ink, ab⟩)
  else
    pure (.error ⟨"Invalid weapon key. \x7bweapon_key\x7d"⟩)

/-- `create_team_performance` of `read_battle_records.py`.  Pure: the
only exceptions that can occur (`ValueError` from `int`/`float`) are
caught and turned into `Err`s.  Python string truthiness (`if
raw_count:`) is non-emptiness. -/
def create_team_performance (team raw_inked raw_inked_percent raw_count : String) :
    Except Err (Option Performance) :=
  if raw_count ≠ "" then
    match str_to_int? raw_count with
    | some n => .ok (some (.rankedPerformance n))
    | none => .error ⟨"Invalid count data for team " ++ team ++ ": " ++ raw_count⟩
  else if raw_inked_percent ≠ "" then
    -- `TurfWarPerformance(inked=..., inked_percent=...)`: the `inked`
    -- argument (`None if raw_inked == "" else int(raw_inked)`) is
    -- evaluated first; a ValueError from either conversion is caught.
    match (if raw_inked = "" then some none else (str_to_int? raw_inked).map some) with
    | none =>
      .error ⟨"Invalid turf-war performance data for team " ++ team ++
        "inked: " ++ raw_inked ++ ", inked_percent: " ++ raw_inked_percent⟩
    | some inked =>
      match str_to_float? raw_inked_percent with
      | some q => .ok (some (.turfWarPerformance inked q))
      | none =>
        .error ⟨"Invalid turf-war performance data for team " ++ team ++
          "inked: " ++ raw_inked ++ ", inked_percent: " ++ raw_inked_percent⟩
  else if raw_inked = "" ∧ raw_inked_percent = "" ∧ raw_count = "" then
    .ok none
  else
    .error ⟨"Invalid performance data for team " ++ team ++
      "inked: " ++ raw_inked ++ ", inked_percent: " ++ raw_inked_percent ++
      "," ++ "count: " ++ raw_count⟩

/-- `create_team_characteristics` of `read_battle_records.py`.  The
four raw fields are read first (each may raise `KeyError`); the theme
field is only read in the success branch, inside the constructor
call. -/
def create_team_characteristics (data : Row) (team : String) :
    Py (Except Err TeamCharacteristics) := do
  let raw_color ← dictGet data (team ++ "-color")
  let color : Option String := if raw_color = "" then none else some raw_color
  let raw_inked ← dictGet data (team ++ "-inked")
  let raw_inked_percent ← dictGet data (team ++ "-ink-percent")
  let raw_count ← dictGet data (team ++ "-count")
  match create_team_performance team raw_inked raw_inked_percent raw_count with
  | .error e => pure (.error e)
  | .ok performance =>
    match color with
    | none => do
      let theme ← dictGet data (team ++ "-theme")
      pure (.ok ⟨team, none, performance, theme⟩)
    | some c =>
      if is_color_string c then do
        let theme ← dictGet data (team ++ "-theme")
        pure (.ok ⟨team, some c, performance, theme⟩)
      else
        pure (.error ⟨"Invalid color key: \x27" ++ raw_color ++ "\x27"⟩)

/-- `create_medal` of `read_battle_records.py`.  Both fields are read
(possible `KeyError`) before any check. -/
def create_medal (data : Row) (medal_num : Nat) : Py (Except Err (Option Medal)) := do
  let grade ← dictGet data ("medal" ++ toString medal_num ++ "-grade")
  let name ← dictGet data ("medal" ++ toString medal_num ++ "-name")
  if grade = "" then
    pure (.ok none)
  else if is_medal_grade grade then
    pure (.ok (some ⟨name, grade⟩))
  else
    pure (.error ⟨"Invalid medal grade: " ++ grade⟩)

/-- The 8 `(team, member)` keys.  The source builds a Python `set`
comprehension `{(team, i) for i in [1, 2, 3, 4] for team in [ALPHA_TEAM,
BRAVO_TEAM]}` whose iteration order is unspecified within a process;
this model fixes the generation order of the comprehension.  No claim
under consideration depends on the order (it only affects which of
several exceptions or error messages surfaces first in multi-error
rows). -/
def participant_keys : List (String × Nat) :=
  [("alpha", 1), ("bravo", 1), ("alpha", 2), ("bravo", 2),
   ("alpha", 3), ("bravo", 3), ("alpha", 4), ("bravo", 4)]

/-- Effectful `map` over a list in the `Py` monad, stopping at the
first exception (Python comprehension semantics). -/
def mapPyM (f : α → Py β) : List α → Py (List β)
  | [] => .ok []
  | x :: xs => do
    let y ← f x
    let ys ← mapPyM f xs
    pure (y :: ys)

/-- The `Err` elements of a list of results, in order (the
`[v for v in ... if isinstance(v, Err)]` pattern of the source). -/
def errList (xs : List (Except Err α)) : List Err :=
  xs.filterMap (fun v => match v with | .error e => some e | .ok _ => none)

/-- Python `repr` of a list of `Err` objects (`Err.__repr__` is
`Err(msg)`). -/
def pyListRepr (es : List Err) : String :=
  "[" ++ String.intercalate ", " (es.map (fun e => "Err(" ++ e.msg ++ ")")) ++ "]"

/-- The successful entries of an association of keys to results
(dict insertion order preserved). -/
def okEntries (xs : List (κ × Except Err α)) : List (κ × α) :=
  xs.filterMap (fun kv => match kv.2 with | .ok v => some (kv.1, v) | .error _ => none)

/-- Python `repr` of `row.keys()` (`dict_keys([...])`), used in the
missing-season message. -/
def dictKeysRepr (d : Row) : String :=
  "dict_keys([" ++ String.intercalate ", " ((rowKeys d).map (fun k => "\x27" ++ k ++ "\x27")) ++ "])"

/-- `battle_record_for_row` of `read_battle_records.py`, line by line:
the five top-level key lookups, the 8 participants, the two team
characteristics, medals 1–2 (`range(1, 3)`), the `"# season"`
membership check, then the combined validator `if` whose success branch
builds the record (evaluating the keyword arguments in source order)
and whose failure branch returns the first failing validator's `Err`. -/
def battle_record_for_row (C : Catalogs) (row_num : Nat) (row : Row) :
    Py (Except Err BattleRecord) := do
  let lobby_key ← dictGet row "lobby"
  let mode_key ← dictGet row "mode"
  let stage_key ← dictGet row "stage"
  let winner_key ← dictGet row "win"
  let rank_str ← dictGet row "rank"
  let participants ← mapPyM (fun k => do
      let v ← create_participant C row k.1 k.2
      pure (k, v)) participant_keys
  if errList (participants.map Prod.snd) ≠ [] then
    pure (.error ⟨"Invalid participant data, skipping row " ++ toString row_num ++
      ". Errors: " ++ pyListRepr (errList (participants.map Prod.snd))⟩)
  else do
  let alphaXs ← create_team_characteristics row "alpha"
  let bravoXs ← create_team_characteristics row "bravo"
  if errList [alphaXs, bravoXs] ≠ [] then
    pure (.error ⟨"Invalid team characteristics, skipping row " ++ toString row_num ++
      ". Errors: " ++ pyListRepr (errList [alphaXs, bravoXs])⟩)
  else do
  let rawMedal1 ← create_medal row 1
  let rawMedal2 ← create_medal row 2
  if errList [rawMedal1, rawMedal2] ≠ [] then
    pure (.error ⟨"Invalid medal data, skipping row " ++ toString row_num ++
      ". Errors: " ++ pyListRepr (errList [rawMedal1, rawMedal2])⟩)
  else do
  if ¬ rowHasKey row "# season" then
    pure (.error ⟨"Missing season field on row " ++ toString row_num ++
      ". Valid Fields: " ++ dictKeysRepr row⟩)
  else do
  if is_lobby_key lobby_key && is_rank_string rank_str && is_mode_key mode_key &&
      is_stage_key C stage_key && is_team_key winner_key then do
    let season ← dictGet row "# season"
    let period ← datetime_fromisoformat (← dictGet row "period")
    let game_version ← dictGet row "game-ver"
    let length ← pyInt (← dictGet row "time")
    let knockout_str ← dictGet row "knockout"
    let power_str ← dictGet row "power"
    let power ← (if power_str ≠ "" then Except.map some (pyFloat power_str) else pure none)
    let event_name ← dictGet row "event"
    pure (.ok
      { season := season
        period := period
        game_version := game_version
        lobby := lobby_key
        mode := mode_key
        stage := stage_key
        length := length
        winning_team := winner_key
        knockout := pyLower knockout_str == "true"
        rank := rank_str
        power := power
        team_characteristics := okEntries [("alpha", alphaXs), ("bravo", bravoXs)]
        participants := okEntries participants
        medals := [rawMedal1, rawMedal2].filterMap
          (fun m => match m with | .ok (some md) => some md | _ => none)
        event_name := event_name })
  else if ¬ is_lobby_key lobby_key then
    pure (.error ⟨"Invalid lobby key: " ++ lobby_key ++ " on row " ++ toString row_num⟩)
  else if ¬ is_rank_string rank_str then
    pure (.error ⟨"Invalid rank string: " ++ rank_str ++ " on row " ++ toString row_num⟩)
  else if ¬ is_mode_key mode_key then
    pure (.error ⟨"Invalid mode key: " ++ mode_key ++ " on row " ++ toString row_num⟩)
  else if ¬ is_stage_key C stage_key then
    pure (.error ⟨"Invalid stage key: " ++ stage_key ++ " on row " ++ toString row_num⟩)
  else
    pure (.error ⟨"Invalid win key: " ++ winner_key ++ " on row " ++ toString row_num⟩)

/-- One CSV member's worth of `battles_from_csv`, starting row
numbering at `n`: successful records are yielded in row order, `Err`
results are logged and skipped, and an uncaught exception ends the
generator after the records yielded so far (returned as the `Option
Exn` component). -/
def battles_from_csv_aux (C : Catalogs) : Nat → List Row → List BattleRecord × Option Exn
  | _, [] => ([], none)
  | n, row :: rest =>
    match battle_record_for_row C n row with
    | .error exn => ([], some exn)
    | .ok (.error _e) => battles_from_csv_aux C (n + 1) rest
    | .ok (.ok rec) =>
      let (rs, x) := battles_from_csv_aux C (n + 1) rest
      (rec :: rs, x)

/-- `battles_from_csv` of `read_battle_records.py` applied to the rows
of one CSV member (the `csv.DictReader` text-parsing layer is a library
concern; its output rows are the input here).  `enumerate` starts at
0. -/
def battles_from_csv (C : Catalogs) (rows : List Row) : List BattleRecord × Option Exn :=
  battles_from_csv_aux C 0 rows

/-- One member of a zip archive: its file name and, when it is a CSV
member, its rows as parsed by `csv.DictReader`. -/
structure ZipEntry where
  filename : String
  rows : List Row

/-- `battle_records_from_zip` of `read_battle_records.py`: iterate the
archive members in order, stream the rows of every member whose name
ends in `.csv`, and concatenate the yielded records; an uncaught
exception from a row ends the whole generator (the `tqdm` progress bar
is display-only and not modelled). -/
def battle_records_from_zip (C : Catalogs) : List ZipEntry → List BattleRecord × Option Exn
  | [] => ([], none)
  | e :: rest =>
    if e.filename.endsWith ".csv" then
      match battles_from_csv C e.rows with
      | (rs, some exn) => (rs, some exn)
      | (rs, none) =>
        let (rs2, x2) := battle_records_from_zip C rest
        (rs ++ rs2, x2)
    else
      battle_records_from_zip C rest

/-! ## Concrete fixtures for witnesses and counterexamples -/

/-- A sample instantiation of the external catalogs (see `Catalogs`):
one weapon key and one stage key. -/
def C0 : Catalogs := ⟨["sample_weapon"], ["sample_stage"]⟩

/-- The participant columns of the row schema for one participant id,
filled with valid values. -/
def participantCols (id_ : String) : Row :=
  [(id_ ++ "-weapon", "sample_weapon"), (id_ ++ "-kill-assist", "10"),
   (id_ ++ "-kill", "7"), (id_ ++ "-assist", "3"), (id_ ++ "-death", "2"),
   (id_ ++ "-special", "4"), (id_ ++ "-inked", "900"), (id_ ++ "-abilities", "\x7b\x7d")]

/-- The team columns of the row schema for one team, filled with valid
(empty) values. -/
def teamCols (t : String) : Row :=
  [(t ++ "-color", ""), (t ++ "-theme", ""), (t ++ "-count", ""),
   (t ++ "-inked", ""), (t ++ "-ink-percent", "")]

/-- A complete row with every required column populated from its valid
set: decodes successfully under `C0`. -/
def rowValid : Row :=
  [("# season", "Chill Season 2022"), ("period", "2023-01-01T10:00:00"),
   ("game-ver", "2.0.1"), ("lobby", "regular"), ("mode", "nawabari"),
   ("stage", "sample_stage"), ("time", "180"), ("win", "alpha"),
   ("knockout", "true"), ("rank", ""), ("power", ""), ("event", "")] ++
  teamCols "alpha" ++ teamCols "bravo" ++
  participantCols "A1" ++ participantCols "A2" ++ participantCols "A3" ++
  participantCols "A4" ++ participantCols "B1" ++ participantCols "B2" ++
  participantCols "B3" ++ participantCols "B4" ++
  [("medal1-grade", ""), ("medal1-name", ""),
   ("medal2-grade", "gold"), ("medal2-name", "Big Bang")]

/-- `rowValid` with an unparsable number in the `A1-kill` column. -/
def rowBadKill : Row := setKey rowValid "A1-kill" "x"

/-- `rowValid` with `A1-abilities` set to the well-formed JSON object
`\x7b"bogus": 1\x7d` whose key is not an ability identifier. -/
def rowBadAbilities : Row := setKey rowValid "A1-abilities" "\x7b\x22bogus\x22: 1\x7d"

/-- `rowValid` with an invalid lobby key *and* an invalid rank label. -/
def rowBadLobbyRank : Row := setKey (setKey rowValid "lobby" "badlobby") "rank" "badrank"

/-- `rowValid` with the `lobby` column removed entirely. -/
def rowNoLobby : Row := removeKey rowValid "lobby"

/-- A default record (only used as the fallback of `extractRecord`). -/
def defaultRecord : BattleRecord :=
  ⟨"", ⟨0, 0, 0, 0, 0, 0⟩, "", "", "", "", 0, "", false, "", none, [], [], [], ""⟩

/-- The record inside a doubly-successful decoder result. -/
def extractRecord : Py (Except Err BattleRecord) → BattleRecord
  | .ok (.ok r) => r
  | _ => defaultRecord

/-- Does the decoder result hold a `BattleRecord` (no exception, no
`Err`)? -/
def resultIsRecord : Py (Except Err BattleRecord) → Bool
  | .ok (.ok _) => true
  | _ => false

/-- The `abilities` field of the participant at key `k` of a
successfully decoded record. -/
def resultParticipantAbilities (x : Py (Except Err BattleRecord)) (k : String × Nat) :
    Option (Except Err (List (String × ℚ))) :=
  match x with
  | .ok (.ok r) => (r.participants.find? (fun kv => kv.1 == k)).map (fun kv => kv.2.abilities)
  | _ => none

/-- Is a `create_team_performance` result an `Err`? -/
def isErrPerformance : Except Err (Option Performance) → Bool
  | .error _ => true
  | .ok _ => false

/-- A one-member archive holding the valid row. -/
def zipEntryValid : ZipEntry := ⟨"battles.csv", [rowValid]⟩

/-- Does a decoder-style result hold a doubly-successful value (no
exception, no `Err`)? -/
def isOkOk : Py (Except Err α) → Bool
  | .ok (.ok _) => true
  | _ => false

/-- The acceptance set of the rank-label claim, written from the
claim's words (independently of the source regex, for comparison with
`is_rank_string`): the empty string; one of the letters `C`, `B`, `A`,
`S` optionally suffixed with `+` or `-`; or `"S+ "` followed by an
integer from 0 to 50. -/
def rank_spec (s : String) : Prop :=
  s = "" ∨
  (∃ c ∈ (["C", "B", "A", "S"] : List String),
    ∃ suf ∈ (["", "+", "-"] : List String), s = c ++ suf) ∨
  (∃ n : Nat, n ≤ 50 ∧ s = "S+ " ++ toString n)

/-! ## Helper lemmas -/

theorem ok_bind {ε α β : Type} (a : α) (f : α → Except ε β) :
    (Except.ok a >>= f) = f a := rfl

theorem error_bind {ε α β : Type} (e : ε) (f : α → Except ε β) :
    ((Except.error e : Except ε α) >>= f) = Except.error e := rfl

theorem pure_eq_ok {ε α : Type} (a : α) : (pure a : Except ε α) = Except.ok a := rfl

theorem bind_ok_inv {ε α β : Type} {x : Except ε α} {f : α → Except ε β} {b : β}
    (h : x >>= f = .ok b) : ∃ a, x = .ok a ∧ f a = .ok b := by
  cases x with
  | error e => rw [error_bind] at h; exact absurd h (by simp)
  | ok a => exact ⟨a, rfl, by rwa [ok_bind] at h⟩

/-! ## Claim theorems -/

/-- C1: the claim that every row-local failure (invalid enum key,
unparsable number, bad ability JSON, missing column) is captured as an
error value, logged and skipped, and that a member with N rows of which
K fail yields exactly the N−K decoded records, is refuted by evaluating
the stream on a two-row member whose first row has the unparsable
number `"x"` in its `A1-kill` column: `int("x")` raises a `ValueError`
that nothing catches, the stream terminates exceptionally, and the
perfectly valid second row yields nothing (0 records instead of
N−K = 1). -/
theorem c1_row_failure_not_captured :
    battles_from_csv C0 [rowBadKill, rowValid] =
      ([], some (.valueError "invalid literal for int() with base 10: \x27x\x27")) ∧
    resultIsRecord (battle_record_for_row C0 0 rowValid) = true := by
  decide

/-- C2: the claim that a row whose abilities column contains a key
outside the ability catalog fails the participant and hence the whole
row is refuted by a row with `A1-abilities = \x7b"bogus": 1\x7d`: the
decoder returns a complete `BattleRecord` whose alpha-1 participant
carries the `Err` produced by `parse_abilities` in its `abilities`
field (a non-mapping value), because `create_participant` stores the
result of `parse_abilities` without checking it. -/
theorem c2_record_with_err_abilities :
    resultIsRecord (battle_record_for_row C0 0 rowBadAbilities) = true ∧
    resultParticipantAbilities (battle_record_for_row C0 0 rowBadAbilities) ("alpha", 1) =
      some (.error ⟨"Invalid ability key found in abilities JSON: \x7b\x27bogus\x27\x7d"⟩) := by
  decide

/-- C3 counterexample: with `count="3"` and `inked-percent="55.5"` both
non-empty, `create_team_performance` does **not** fail: the count field
takes priority and the ranked variant is returned. -/
theorem c3_both_nonempty_succeeds :
    create_team_performance "alpha" "" "55.5" "3" =
      .ok (some (.rankedPerformance 3)) ∧
    isErrPerformance (create_team_performance "alpha" "" "55.5" "3") = false := by
  decide

/-- C4: the claim that a row missing any one required column produces a
structural whole-row failure value is refuted by a row missing the
`lobby` column: `row["lobby"]` raises a `KeyError` that nothing
catches (only the `"# season"` column is membership-checked), so no
failure value is produced and the exception terminates the whole
stream, losing the valid row that follows. -/
theorem c4_missing_column_raises :
    battle_record_for_row C0 0 rowNoLobby = .error (.keyError "lobby") ∧
    battles_from_csv C0 [rowNoLobby, rowValid] = ([], some (.keyError "lobby")) := by
  decide

/-- C6: `create_team_performance` follows the priority policy exactly:
a non-empty count string wins and yields the ranked variant (failure if
unparsable); otherwise a non-empty inked-percent string yields the
turf-war variant with optional integer inked amount and fractional
inked percent (failure if either is unparsable); otherwise all-empty
means absent performance; otherwise (inked amount present with
inked-percent empty) it is a failure. -/
theorem c6_variant_selection_priority (team raw_inked raw_inked_percent raw_count : String) :
    (raw_count ≠ "" → ∀ n, str_to_int? raw_count = some n →
      create_team_performance team raw_inked raw_inked_percent raw_count =
        .ok (some (.rankedPerformance n))) ∧
    (raw_count ≠ "" → str_to_int? raw_count = none →
      ∃ e, create_team_performance team raw_inked raw_inked_percent raw_count = .error e) ∧
    (raw_count = "" → raw_inked_percent ≠ "" → ∀ q, str_to_float? raw_inked_percent = some q →
      (raw_inked = "" →
        create_team_performance team raw_inked raw_inked_percent raw_count =
          .ok (some (.turfWarPerformance none q))) ∧
      (∀ m, str_to_int? raw_inked = some m →
        create_team_performance team raw_inked raw_inked_percent raw_count =
          .ok (some (.turfWarPerformance (some m) q))) ∧
      (raw_inked ≠ "" → str_to_int? raw_inked = none →
        ∃ e, create_team_performance team raw_inked raw_inked_percent raw_count = .error e)) ∧
    (raw_count = "" → raw_inked_percent ≠ "" → str_to_float? raw_inked_percent = none →
      ∃ e, create_team_performance team raw_inked raw_inked_percent raw_count = .error e) ∧
    (raw_count = "" → raw_inked_percent = "" → raw_inked = "" →
      create_team_performance team raw_inked raw_inked_percent raw_count = .ok none) ∧
    (raw_count = "" → raw_inked_percent = "" → raw_inked ≠ "" →
      ∃ e, create_team_performance team raw_inked raw_inked_percent raw_count = .error e) := by
  refine ⟨?_, ?_, ?_, ?_, ?_, ?_⟩
  · intro hc n hn
    simp [create_team_performance, hc, hn]
  · intro hc hn
    refine ⟨⟨"Invalid count data for team " ++ team ++ ": " ++ raw_count⟩, ?_⟩
    simp [create_team_performance, hc, hn]
  · intro hc hp q hq
    subst hc
    refine ⟨?_, ?_, ?_⟩
    · intro hri
      subst hri
      simp [create_team_performance, hp, hq]
    · intro m hm
      by_cases hri : raw_inked = ""
      · rw [hri] at hm
        have hnone : str_to_int? "" = none := rfl
        rw [hnone] at hm
        cases hm
      · simp [create_team_performance, hp, hq, hm, hri]
    · intro hri hm
      refine ⟨⟨"Invalid turf-war performance data for team " ++ team ++
        "inked: " ++ raw_inked ++ ", inked_percent: " ++ raw_inked_percent⟩, ?_⟩
      simp [create_team_performance, hp, hq, hm, hri]
  · intro hc hp hq
    subst hc
    refine ⟨⟨"Invalid turf-war performance data for team " ++ team ++
      "inked: " ++ raw_inked ++ ", inked_percent: " ++ raw_inked_percent⟩, ?_⟩
    simp only [create_team_performance]
    rw [if_neg (by simp), if_pos hp]
    cases hri : (if raw_inked = "" then some none else (str_to_int? raw_inked).map some) with
    | none => rfl
    | some inked => rw [hq]
  · intro hc hp hri
    subst hc; subst hp; subst hri
    simp [create_team_performance]
  · intro hc hp hri
    subst hc; subst hp
    refine ⟨⟨"Invalid performance data for team " ++ team ++
      "inked: " ++ raw_inked ++ ", inked_percent: " ++ "" ++ "," ++ "count: " ++ ""⟩, ?_⟩
    simp [create_team_performance, hri]

/-- C3 amendment: when both the count field and the inked-percent field
are non-empty, decoding does not automatically fail — the count field
takes priority, yielding the ranked variant when the count parses and a
failure only when it does not. -/
theorem c3_count_takes_priority (team raw_inked raw_inked_percent raw_count : String)
    (hc : raw_count ≠ "") (_hp : raw_inked_percent ≠ "") :
    (∀ n, str_to_int? raw_count = some n →
      create_team_performance team raw_inked raw_inked_percent raw_count =
        .ok (some (.rankedPerformance n))) ∧
    (str_to_int? raw_count = none →
      ∃ e, create_team_performance team raw_inked raw_inked_percent raw_count = .error e) := by
  refine ⟨?_, ?_⟩
  · intro n hn
    simp [create_team_performance, hc, hn]
  · intro hn
    refine ⟨⟨"Invalid count data for team " ++ team ++ ": " ++ raw_count⟩, ?_⟩
    simp [create_team_performance, hc, hn]

/-- Witness for C3's amended theorem at the counterexample's own input. -/
theorem c3_count_takes_priority_witness :
    create_team_performance "alpha" "" "55.5" "3" = .ok (some (.rankedPerformance 3)) :=
  (c3_count_takes_priority "alpha" "" "55.5" "3" (by decide) (by decide)).1 3 (by decide)

/-- Witness for C6 at the spec's four concrete examples. -/
theorem c6_variant_selection_priority_witness :
    create_team_performance "alpha" "" "" "3" = .ok (some (.rankedPerformance 3)) ∧
    create_team_performance "alpha" "1200" "55.5" "" =
      .ok (some (.turfWarPerformance (some 1200) (111 / 2 : ℚ))) ∧
    create_team_performance "alpha" "" "" "" = .ok none ∧
    isErrPerformance (create_team_performance "alpha" "1200" "" "") = true := by
  refine ⟨?_, ?_, ?_, ?_⟩
  · exact (c6_variant_selection_priority "alpha" "" "" "3").1 (by decide) 3 (by decide)
  · exact (((c6_variant_selection_priority "alpha" "1200" "55.5" "").2.2.1 rfl (by decide)
      (111 / 2 : ℚ) (by with_unfolding_all decide)).2.1) 1200 (by decide)
  · exact (c6_variant_selection_priority "alpha" "" "" "").2.2.2.2.1 rfl rfl rfl
  · obtain ⟨e, he⟩ :=
      (c6_variant_selection_priority "alpha" "1200" "" "").2.2.2.2.2 rfl rfl (by decide)
    rw [he]; rfl

/-- C10: a row whose team color column is the empty string decodes
with `color = None` (the 8-hex-digit check applies only to non-empty
colors), even though the color validator itself rejects the empty
string. -/
theorem c10_empty_color_is_absent (row : Row) (team ri rip rc th : String)
    (perf : Option Performance)
    (hcol : dictGet row (team ++ "-color") = .ok "")
    (hri : dictGet row (team ++ "-inked") = .ok ri)
    (hrip : dictGet row (team ++ "-ink-percent") = .ok rip)
    (hrc : dictGet row (team ++ "-count") = .ok rc)
    (hperf : create_team_performance team ri rip rc = .ok perf)
    (hth : dictGet row (team ++ "-theme") = .ok th) :
    create_team_characteristics row team = .ok (.ok ⟨team, none, perf, th⟩) ∧
    is_color_string "" = false := by
  constructor
  · simp [create_team_characteristics, hcol, hri, hrip, hrc, hperf, hth, ok_bind, pure_eq_ok]
  · decide

/-- Witness for C10 on the valid row's alpha team. -/
theorem c10_empty_color_is_absent_witness :
    create_team_characteristics rowValid "alpha" = .ok (.ok ⟨"alpha", none, none, ""⟩) ∧
    is_color_string "" = false :=
  c10_empty_color_is_absent rowValid "alpha" "" "" "" "" none (by decide) (by decide)
    (by decide) (by decide) (by decide) (by decide)

/-- C9: the archive-streaming pipeline of the embedding is a pure
function of the archive contents, so invoking the factory twice on the
same input yields sequences of identical length and identical record
content. -/
theorem c9_restart_determinism (C : Catalogs) (entries1 entries2 : List ZipEntry)
    (h : entries1 = entries2) :
    (battle_records_from_zip C entries1).1.length =
      (battle_records_from_zip C entries2).1.length ∧
    battle_records_from_zip C entries1 = battle_records_from_zip C entries2 := by
  subst h
  exact ⟨rfl, rfl⟩

/-- Witness for C9 on a concrete one-member archive. -/
theorem c9_restart_determinism_witness :
    (battle_records_from_zip C0 [zipEntryValid]).1.length =
      (battle_records_from_zip C0 [zipEntryValid]).1.length ∧
    battle_records_from_zip C0 [zipEntryValid] = battle_records_from_zip C0 [zipEntryValid] :=
  c9_restart_determinism C0 [zipEntryValid] [zipEntryValid] rfl

theorem char_eq_of_toNat_eq {a b : Char} (h : a.val.toNat = b.val.toNat) : a = b :=
  Char.eq_of_val_eq (UInt32.toNat.inj h)

theorem uint32_le_toNat {a b : UInt32} (h : a ≤ b) : a.toNat ≤ b.toNat :=
  BitVec.le_def.mp (UInt32.le_def.mp h)

theorem char_list_eq_of_map_toNat : ∀ {l1 l2 : List Char},
    l1.map (fun c => c.val.toNat) = l2.map (fun c => c.val.toNat) → l1 = l2
  | [], [], _ => rfl
  | [], _ :: _, h => by simp at h
  | _ :: _, [], h => by simp at h
  | a :: t1, b :: t2, h => by
    simp only [List.map_cons, List.cons.injEq] at h
    rw [char_eq_of_toNat_eq h.1, char_list_eq_of_map_toNat h.2]

theorem toString_digit_map (b : Nat) (hb : b ≤ 9) :
    ("S+ " ++ toString b).data.map (fun c => c.val.toNat) = [83, 43, 32, 48 + b] := by
  interval_cases b <;> decide

theorem toString_two_digit_map (n : Nat) (h1 : 10 ≤ n) (h2 : n ≤ 50) :
    ("S+ " ++ toString n).data.map (fun c => c.val.toNat) =
      [83, 43, 32, 48 + n / 10, 48 + n % 10] := by
  interval_cases n <;> decide

/-- C7: the rank-label validator accepts exactly the empty string, the
letters `C`, `B`, `A`, `S` optionally suffixed with `+` or `-`, and
`"S+ "` followed by an integer from 0 to 50 — in particular it accepts
`""`, `"C-"`, `"B+"`, `"A"`, `"S"`, `"S+ 0"`, `"S+ 50"` and rejects
`"S+ 51"`, `"D"`, `"s+"` and `"S+50"`. -/
theorem c7_rank_label_validator :
    (∀ s : String, is_rank_string s = true ↔ rank_spec s) ∧
    (is_rank_string "" = true ∧ is_rank_string "C-" = true ∧ is_rank_string "B+" = true ∧
     is_rank_string "A" = true ∧ is_rank_string "S" = true ∧ is_rank_string "S+ 0" = true ∧
     is_rank_string "S+ 50" = true) ∧
    (is_rank_string "S+ 51" = false ∧ is_rank_string "D" = false ∧
     is_rank_string "s+" = false ∧ is_rank_string "S+50" = false) := by
  refine ⟨?_, by decide, by decide⟩
  intro s
  constructor
  · intro h
    rcases hd : s.data with _ | ⟨c, _ | ⟨d, _ | ⟨e, _ | ⟨f, _ | ⟨g, _ | ⟨x, tl⟩⟩⟩⟩⟩⟩
    · exact Or.inl (String.ext (by rw [hd]))
    · simp [is_rank_string, hd] at h
      refine Or.inr (Or.inl ⟨⟨[c]⟩, ?_, "", by decide, String.ext (by rw [hd]; rfl)⟩)
      rcases h with ((hc | hc) | hc) | hc <;> subst hc <;> decide
    · simp [is_rank_string, hd] at h
      refine Or.inr (Or.inl ⟨⟨[c]⟩, ?_, ⟨[d]⟩, ?_, String.ext (by rw [hd]; rfl)⟩)
      · rcases h.1 with ((hc | hc) | hc) | hc <;> subst hc <;> decide
      · rcases h.2 with hd2 | hd2 <;> subst hd2 <;> decide
    · simp [is_rank_string, hd] at h
    · simp [is_rank_string, hd, Char.isDigit] at h
      obtain ⟨⟨⟨hc, hd2⟩, he⟩, h4, h5⟩ := h
      subst hc; subst hd2; subst he
      have hlo : 48 ≤ f.val.toNat := uint32_le_toNat h4
      have hhi : f.val.toNat ≤ 57 := uint32_le_toNat h5
      refine Or.inr (Or.inr ⟨f.val.toNat - 48, by omega, ?_⟩)
      refine String.ext (char_list_eq_of_map_toNat ?_)
      rw [hd, toString_digit_map _ (by omega)]
      simp only [List.map_cons, List.map_nil, List.cons.injEq]
      refine ⟨by decide, by decide, by decide, by omega, trivial⟩
    · simp [is_rank_string, hd, Char.isDigit] at h
      obtain ⟨⟨⟨hc, hd2⟩, he⟩, hrest⟩ := h
      subst hc; subst hd2; subst he
      rcases hrest with ⟨⟨h1, h4⟩, hg1, hg2⟩ | ⟨h5, h0⟩
      · have hf1 : 49 ≤ f.val.toNat := uint32_le_toNat h1
        have hf4 : f.val.toNat ≤ 52 := uint32_le_toNat h4
        have hglo : 48 ≤ g.val.toNat := uint32_le_toNat hg1
        have hghi : g.val.toNat ≤ 57 := uint32_le_toNat hg2
        refine Or.inr (Or.inr
          ⟨10 * (f.val.toNat - 48) + (g.val.toNat - 48), by omega, ?_⟩)
        refine String.ext (char_list_eq_of_map_toNat ?_)
        rw [hd, toString_two_digit_map _ (by omega) (by omega)]
        simp only [List.map_cons, List.map_nil, List.cons.injEq]
        refine ⟨by decide, by decide, by decide, by omega, by omega, trivial⟩
      · subst h5; subst h0
        exact Or.inr (Or.inr ⟨50, by omega, String.ext (by rw [hd]; decide)⟩)
    · simp [is_rank_string, hd] at h
  · intro h
    rcases h with h | ⟨c, hc, suf, hsuf, h⟩ | ⟨n, hn, h⟩
    · subst h; decide
    · fin_cases hc <;> fin_cases hsuf <;> subst h <;> decide
    · subst h
      interval_cases n <;> decide

theorem mapPyM_pair_fst {α β : Type} (f : α → Py β) :
    ∀ (l : List α) (ps : List (α × β)),
      mapPyM (fun k => do let v ← f k; pure (k, v)) l = .ok ps →
      ps.map Prod.fst = l := by
  intro l
  induction l with
  | nil =>
    intro ps h
    simp only [mapPyM] at h
    cases h
    rfl
  | cons a t ih =>
    intro ps h
    simp only [mapPyM] at h
    cases hfa : f a with
    | error e => rw [hfa, error_bind, error_bind] at h; cases h
    | ok v =>
      rw [hfa, ok_bind, pure_eq_ok, ok_bind] at h
      cases hm : mapPyM (fun k => do let v ← f k; pure (k, v)) t with
      | error e => rw [hm, error_bind] at h; cases h
      | ok ys =>
        rw [hm, ok_bind, pure_eq_ok] at h
        cases h
        simp [ih ys hm]

theorem okEntries_all_ok {κ α : Type} :
    ∀ xs : List (κ × Except Err α), errList (xs.map Prod.snd) = [] →
      (okEntries xs).map Prod.fst = xs.map Prod.fst ∧
      (okEntries xs).length = xs.length := by
  intro xs
  induction xs with
  | nil => intro _; exact ⟨rfl, rfl⟩
  | cons kv t ih =>
    intro h
    obtain ⟨k, v⟩ := kv
    cases v with
    | error e => simp [errList] at h
    | ok a =>
      simp only [List.map_cons, errList, List.filterMap_cons] at h ih ⊢
      obtain ⟨h1, h2⟩ := ih h
      simp [okEntries, List.filterMap_cons] at h1 h2 ⊢
      exact ⟨h1, h2⟩

theorem team_key_cases {w : String} (h : is_team_key w = true) :
    w = "alpha" ∨ w = "bravo" := by
  simp [is_team_key, TEAM_KEYS] at h
  exact h

/-- C8: every `BattleRecord` returned by the row decoder has exactly
one participant entry for each of the 8 (team, slot) combinations with
team in alpha/bravo and slot in 1..4, exactly 2 team-characteristics
entries, and a winning team that is one of the two team identifiers. -/
theorem c8_record_invariant (C : Catalogs) (n : Nat) (row : Row) (rec : BattleRecord)
    (h : battle_record_for_row C n row = .ok (.ok rec)) :
    (∀ t sl, ((t = "alpha" ∨ t = "bravo") ∧ (1 ≤ sl ∧ sl ≤ 4)) →
      (rec.participants.map Prod.fst).count (t, sl) = 1) ∧
    rec.participants.length = 8 ∧
    rec.team_characteristics.length = 2 ∧
    (rec.winning_team = "alpha" ∨ rec.winning_team = "bravo") := by
  simp only [battle_record_for_row] at h
  obtain ⟨lobby_key, hlob, h⟩ := bind_ok_inv h
  obtain ⟨mode_key, hmode, h⟩ := bind_ok_inv h
  obtain ⟨stage_key, hstage, h⟩ := bind_ok_inv h
  obtain ⟨winner_key, hwin, h⟩ := bind_ok_inv h
  obtain ⟨rank_str, hrank, h⟩ := bind_ok_inv h
  obtain ⟨ps, hps, h⟩ := bind_ok_inv h
  by_cases herr : errList (ps.map Prod.snd) ≠ []
  · rw [if_pos herr, pure_eq_ok] at h; cases h
  · rw [if_neg herr] at h
    rw [not_not] at herr
    obtain ⟨alphaXs, hA, h⟩ := bind_ok_inv h
    obtain ⟨bravoXs, hB, h⟩ := bind_ok_inv h
    by_cases htc : errList [alphaXs, bravoXs] ≠ []
    · rw [if_pos htc, pure_eq_ok] at h; cases h
    · rw [if_neg htc] at h
      rw [not_not] at htc
      obtain ⟨m1, hm1, h⟩ := bind_ok_inv h
      obtain ⟨m2, hm2, h⟩ := bind_ok_inv h
      by_cases hmed : errList [m1, m2] ≠ []
      · rw [if_pos hmed, pure_eq_ok] at h; cases h
      · rw [if_neg hmed] at h
        by_cases hseason : ¬ rowHasKey row "# season" = true
        · rw [if_pos hseason, pure_eq_ok] at h; cases h
        · rw [if_neg hseason] at h
          by_cases hv : (is_lobby_key lobby_key && is_rank_string rank_str &&
              is_mode_key mode_key && is_stage_key C stage_key &&
              is_team_key winner_key) = true
          · rw [if_pos hv] at h
            obtain ⟨pstr, hpstr, h⟩ := bind_ok_inv h
            obtain ⟨season, hseas2, h⟩ := bind_ok_inv h
            obtain ⟨period, hper, h⟩ := bind_ok_inv h
            obtain ⟨gv, hgv, h⟩ := bind_ok_inv h
            obtain ⟨tstr, htstr, h⟩ := bind_ok_inv h
            obtain ⟨length, hlen, h⟩ := bind_ok_inv h
            obtain ⟨ko, hko, h⟩ := bind_ok_inv h
            obtain ⟨pw, hpw, h⟩ := bind_ok_inv h
            obtain ⟨power, hpower, h⟩ := bind_ok_inv h
            obtain ⟨event_name, hev, h⟩ := bind_ok_inv h
            rw [pure_eq_ok] at h
            cases h
            have hfst := mapPyM_pair_fst _ participant_keys ps hps
            obtain ⟨hok1, hok2⟩ := okEntries_all_ok ps herr
            simp only [Bool.and_eq_true] at hv
            refine ⟨?_, ?_, ?_, ?_⟩
            · intro t sl ⟨ht, hsl1, hsl2⟩
              show ((okEntries ps).map Prod.fst).count (t, sl) = 1
              rw [hok1, hfst]
              rcases ht with rfl | rfl <;> interval_cases sl <;> decide
            · show (okEntries ps).length = 8
              rw [hok2]
              have : ps.length = (ps.map Prod.fst).length := (List.length_map _ _).symm
              rw [this, hfst]
              rfl
            · show (okEntries [("alpha", alphaXs), ("bravo", bravoXs)]).length = 2
              cases alphaXs with
              | error e => simp [errList] at htc
              | ok ta =>
                cases bravoXs with
                | error e => simp [errList] at htc
                | ok tb => rfl
            · exact team_key_cases hv.2
          · rw [if_neg hv] at h
            split_ifs at h <;> rw [pure_eq_ok] at h <;> cases h

/-- Witness for C8 on the valid row. -/
theorem c8_record_invariant_witness :
    ((extractRecord (battle_record_for_row C0 0 rowValid)).participants.map
      Prod.fst).count ("alpha", 2) = 1 ∧
    (extractRecord (battle_record_for_row C0 0 rowValid)).participants.length = 8 ∧
    (extractRecord (battle_record_for_row C0 0 rowValid)).team_characteristics.length = 2 ∧
    ((extractRecord (battle_record_for_row C0 0 rowValid)).winning_team = "alpha" ∨
      (extractRecord (battle_record_for_row C0 0 rowValid)).winning_team = "bravo") := by
  have h := c8_record_invariant C0 0 rowValid
    (extractRecord (battle_record_for_row C0 0 rowValid)) (by decide)
  exact ⟨h.1 "alpha" 2 ⟨Or.inl rfl, by omega⟩, h.2.1, h.2.2.1, h.2.2.2⟩

theorem isOkOk_elim {γ : Type} {x : Py (Except Err γ)} (h : isOkOk x = true) :
    ∃ a, x = .ok (.ok a) := by
  cases x with
  | error e => simp [isOkOk] at h
  | ok v =>
    cases v with
    | error e => simp [isOkOk] at h
    | ok a => exact ⟨a, rfl⟩

theorem mapPyM_pair_all_ok {α γ : Type} (f : α → Py (Except Err γ)) :
    ∀ l : List α, (∀ k ∈ l, isOkOk (f k) = true) →
      ∃ ps, mapPyM (fun k => do let v ← f k; pure (k, v)) l = .ok ps ∧
        errList (ps.map Prod.snd) = [] := by
  intro l
  induction l with
  | nil => intro _; exact ⟨[], rfl, rfl⟩
  | cons a t ih =>
    intro hall
    obtain ⟨ps, hps, herr⟩ := ih (fun k hk => hall k (List.mem_cons_of_mem _ hk))
    have ha := hall a (List.mem_cons_self _ _)
    obtain ⟨p, hfa⟩ := isOkOk_elim ha
    refine ⟨(a, .ok p) :: ps, ?_, ?_⟩
    · simp only [mapPyM]
      rw [hfa, ok_bind, pure_eq_ok, ok_bind, hps, ok_bind, pure_eq_ok]
    · simpa [errList] using herr

/-- C5 amendment: when the row decoder reaches the top-level key
validation step with several of the lobby, rank, mode, stage and
winning-team fields invalid, it reports only the **first** failing
field in that fixed order (the source's error-reporting pass consists
of early-`return` statements), not all of them. -/
theorem c5_first_invalid_field_only (C : Catalogs) (n : Nat) (row : Row)
    (lobby_key mode_key stage_key winner_key rank_str : String)
    (hlob : dictGet row "lobby" = .ok lobby_key)
    (hmode : dictGet row "mode" = .ok mode_key)
    (hstage : dictGet row "stage" = .ok stage_key)
    (hwin : dictGet row "win" = .ok winner_key)
    (hrank : dictGet row "rank" = .ok rank_str)
    (hparts : ∀ k ∈ participant_keys, isOkOk (create_participant C row k.1 k.2) = true)
    (htca : isOkOk (create_team_characteristics row "alpha") = true)
    (htcb : isOkOk (create_team_characteristics row "bravo") = true)
    (hm1 : isOkOk (create_medal row 1) = true)
    (hm2 : isOkOk (create_medal row 2) = true)
    (hseason : rowHasKey row "# season" = true)
    (hnv : (is_lobby_key lobby_key && is_rank_string rank_str && is_mode_key mode_key &&
        is_stage_key C stage_key && is_team_key winner_key) = false) :
    battle_record_for_row C n row = .ok (.error
      (if ¬ is_lobby_key lobby_key then
        ⟨"Invalid lobby key: " ++ lobby_key ++ " on row " ++ toString n⟩
      else if ¬ is_rank_string rank_str then
        ⟨"Invalid rank string: " ++ rank_str ++ " on row " ++ toString n⟩
      else if ¬ is_mode_key mode_key then
        ⟨"Invalid mode key: " ++ mode_key ++ " on row " ++ toString n⟩
      else if ¬ is_stage_key C stage_key then
        ⟨"Invalid stage key: " ++ stage_key ++ " on row " ++ toString n⟩
      else ⟨"Invalid win key: " ++ winner_key ++ " on row " ++ toString n⟩)) := by
  obtain ⟨ps, hps, herr⟩ := mapPyM_pair_all_ok _ participant_keys hparts
  obtain ⟨ta, hta⟩ := isOkOk_elim htca
  obtain ⟨tb, htb⟩ := isOkOk_elim htcb
  obtain ⟨o1, ho1⟩ := isOkOk_elim hm1
  obtain ⟨o2, ho2⟩ := isOkOk_elim hm2
  simp only [battle_record_for_row]
  rw [hlob, ok_bind, hmode, ok_bind, hstage, ok_bind, hwin, ok_bind, hrank, ok_bind,
    hps, ok_bind]
  rw [if_neg (by simp [herr])]
  rw [hta, ok_bind, htb, ok_bind]
  rw [if_neg (by simp [errList])]
  rw [ho1, ok_bind, ho2, ok_bind]
  rw [if_neg (by simp [errList])]
  rw [if_neg (by simp [hseason])]
  rw [if_neg (by simp [hnv])]
  split_ifs <;> rfl

/-- C5 counterexample: on a row whose lobby key and rank label are both
invalid, the decoder's failure names only the lobby field; the invalid
rank label is not reported. -/
theorem c5_second_failure_unreported :
    battle_record_for_row C0 0 rowBadLobbyRank =
      .ok (.error ⟨"Invalid lobby key: badlobby on row 0"⟩) ∧
    is_lobby_key "badlobby" = false ∧
    is_rank_string "badrank" = false := by
  decide

/-- Witness for C5's amended theorem on the bad-lobby-and-rank row. -/
theorem c5_first_invalid_field_only_witness :
    battle_record_for_row C0 0 rowBadLobbyRank =
      .ok (.error ⟨"Invalid lobby key: badlobby on row 0"⟩) := by
  have h := c5_first_invalid_field_only C0 0 rowBadLobbyRank
    "badlobby" "nawabari" "sample_stage" "alpha" "badrank"
    (by decide) (by decide) (by decide) (by decide) (by decide) (by decide)
    (by decide) (by decide) (by decide) (by decide) (by decide) (by decide)
  rw [h]
  decide

end Splatoon3
